import Mathlib

/-!
Shallow embedding of the aggregation-kind type-dispatch subsystem of cudf
(cpp/include/cudf/detail/aggregation/aggregation.hpp and
cpp/include/cudf/aggregation.hpp), together with theorems settling the
specification claims about it.

The element-type universe is the engine's column type system (types.hpp is
outside the given sources; the set below follows the spec: integer widths,
floating widths, timestamp variants, plus the string element type that the
column type system also dispatches, which exercises the resolver's primary
template).
-/

namespace cudf

/-- The element types of the engine's column type system, as the static types
the type dispatcher resolves a runtime type tag to. Modelled from the spec:
types.hpp is not among the given sources; the spec lists integer widths,
floating widths, timestamp variants and a dedicated count/index type, and the
column system also carries a string type, which instantiates the resolver's
primary template. -/
inductive ElementType where
  | int8
  | int16
  | int32
  | int64
  | float32
  | float64
  | timestamp_D
  | timestamp_s
  | timestamp_ms
  | timestamp_us
  | timestamp_ns
  | string
  deriving DecidableEq, BEq

/-- aggregation::Kind from aggregation.hpp: the closed enumeration of
aggregation operations, in source order (so with the underlying values
SUM = 0 ... CUDA = 10). -/
inductive Kind where
  | SUM
  | MIN
  | MAX
  | COUNT
  | MEAN
  | MEDIAN
  | QUANTILE
  | ARGMAX
  | ARGMIN
  | PTX
  | CUDA
  deriving DecidableEq, BEq

/-- The underlying integer value of each aggregation::Kind enumerator. -/
def kindVal : Kind → Nat
  | .SUM => 0
  | .MIN => 1
  | .MAX => 2
  | .COUNT => 3
  | .MEAN => 4
  | .MEDIAN => 5
  | .QUANTILE => 6
  | .ARGMAX => 7
  | .ARGMIN => 8
  | .PTX => 9
  | .CUDA => 10

/-- std::is_integral over the modelled element types: the fixed-width signed
integer element types. -/
def is_integral : ElementType → Bool
  | .int8 => true
  | .int16 => true
  | .int32 => true
  | .int64 => true
  | _ => false

/-- std::is_floating_point over the modelled element types. -/
def is_floating_point : ElementType → Bool
  | .float32 => true
  | .float64 => true
  | _ => false

/-- cudf::is_timestamp over the modelled element types. -/
def is_timestamp : ElementType → Bool
  | .timestamp_D => true
  | .timestamp_s => true
  | .timestamp_ms => true
  | .timestamp_us => true
  | .timestamp_ns => true
  | _ => false

/-- The C++ types that the target-type resolver can produce: an element type,
the type void (the no-mapping result of the primary target_type_impl
template), or a target_type_impl trait class itself, which is what the MEDIAN
specialization names (its alias omits the trailing type member access). -/
inductive CppType where
  | elem (t : ElementType)
  | void
  | traitStruct (s : ElementType) (k : Kind)
  deriving DecidableEq, BEq

/-- cudf::size_type. Modelled from the spec: types.hpp is not among the given
sources; the spec identifies the engine's count/index type with the 32-bit
signed integer element type (resolve(int32, COUNT) yields int32, the engine's
count type). -/
def size_type : CppType := .elem .int32

/-- The C++ double type, which is the float64 element type. -/
def double : CppType := .elem .float64

/-- The C++ int64_t type, which is the int64 element type. -/
def int64_t : CppType := .elem .int64

/-- target_type_t, the alias for target_type_impl::type: the accumulator type
for aggregation k on elements of type s. Transcribed specialization by
specialization from aggregation.hpp:
MIN and MAX use the Source accumulator; COUNT always uses size_type; MEAN
always uses double; SUM uses int64_t for integral Source, Source itself for
floating-point and timestamp Source, and otherwise falls to the primary
template (void); QUANTILE always uses double; the MEDIAN specialization sets
its type member to the trait class target_type_impl of (Source, QUANTILE)
itself, not to that trait's type member; ARGMAX and ARGMIN always use
size_type; PTX and CUDA have no specialization, so the primary template
yields void. -/
def target_type_t (s : ElementType) (k : Kind) : CppType :=
  match k with
  | .SUM =>
      if is_integral s then int64_t
      else if is_floating_point s then .elem s
      else if is_timestamp s then .elem s
      else .void
  | .MIN => .elem s
  | .MAX => .elem s
  | .COUNT => size_type
  | .MEAN => double
  | .MEDIAN => .traitStruct s .QUANTILE
  | .QUANTILE => double
  | .ARGMAX => size_type
  | .ARGMIN => size_type
  | .PTX => .void
  | .CUDA => .void

/-- std::is_void on the modelled C++ types. -/
def is_void : CppType → Bool
  | .void => true
  | _ => false

/-- is_valid_aggregation from aggregation.hpp: the aggregation k is valid on
Source exactly when target_type_t of (Source, k) is not void. -/
def is_valid_aggregation (s : ElementType) (k : Kind) : Bool :=
  !(is_void (target_type_t s k))

/-- ARGMAX_SENTINEL from aggregation.hpp: the size_type sentinel an ARGMAX
output column is initialized with to mark an unused element. -/
def ARGMAX_SENTINEL : Int := -1

/-- ARGMIN_SENTINEL from aggregation.hpp: the size_type sentinel an ARGMIN
output column is initialized with to mark an unused element. -/
def ARGMIN_SENTINEL : Int := -1

/-- experimental::interpolation. Modelled from the spec: types.hpp is not
among the given sources; the spec enumerates the interpolation modes nearest,
linear, lower, higher, midpoint. -/
inductive interpolation where
  | LINEAR
  | LOWER
  | HIGHER
  | MIDPOINT
  | NEAREST

/-- The construction-time error taxonomy of the spec: a quantile or median
descriptor built with zero fractions, or a user-defined descriptor built with
empty source text. -/
inductive DescriptorError where
  | MalformedDescriptor

/-- detail::quantile_aggregation from aggregation.hpp, with the inherited
aggregation base flattened into the kind field. -/
structure quantile_aggregation where
  kind : Kind
  _quantiles : List Float
  _interpolation : interpolation

/-- The quantile_aggregation constructor: it initializes the base with
QUANTILE and copies the quantile list and interpolation mode. The C++
constructor body is empty and performs no validation, so construction always
succeeds; the Except return type is the failure channel on which a
construction-time error would be reported if one were raised. -/
def quantile_aggregation.construct (q : List Float) (i : interpolation) :
    Except DescriptorError quantile_aggregation :=
  .ok ⟨.QUANTILE, q, i⟩

/-- The set of Kind cases the aggregation_dispatcher switch enumerates:
every kind except the user-defined PTX and CUDA kinds, which fall to the
default branch. -/
def in_dispatch_set : Kind → Bool
  | .PTX => false
  | .CUDA => false
  | _ => true

/-- aggregation_dispatcher compiled for the host path, on the runtime integer
value held by the Kind argument (a C++ enum object can hold values outside
the enumerator list, which is why the argument is a raw value and not a
Kind). The switch enumerates SUM through ARGMIN, values 0 through 8, and
calls the specialization of f for the matched kind; the default branch raises
the structured failure CUDF_FAIL with the message Unsupported aggregation.
before any operation body runs. -/
def aggregation_dispatcher_host {α : Type} (v : Nat) (f : Kind → α) :
    Except String α :=
  match v with
  | 0 => .ok (f .SUM)
  | 1 => .ok (f .MIN)
  | 2 => .ok (f .MAX)
  | 3 => .ok (f .COUNT)
  | 4 => .ok (f .MEAN)
  | 5 => .ok (f .MEDIAN)
  | 6 => .ok (f .QUANTILE)
  | 7 => .ok (f .ARGMAX)
  | 8 => .ok (f .ARGMIN)
  | _ => .error "Unsupported aggregation."

/-- The outcome of a device-path call: either a value or an immediate abort
of the executing thread via release_assert. -/
inductive DeviceResult (α : Type) where
  | ok (a : α)
  | assert_failure (msg : String)
  deriving BEq

/-- aggregation_dispatcher compiled for the device path: the same switch,
but the default branch aborts through release_assert with the message
Unsuported aggregation. (the typo is the source's) and the code after the
assert is unreachable. -/
def aggregation_dispatcher_device {α : Type} (v : Nat) (f : Kind → α) :
    DeviceResult α :=
  match v with
  | 0 => .ok (f .SUM)
  | 1 => .ok (f .MIN)
  | 2 => .ok (f .MAX)
  | 3 => .ok (f .COUNT)
  | 4 => .ok (f .MEAN)
  | 5 => .ok (f .MEDIAN)
  | 6 => .ok (f .QUANTILE)
  | 7 => .ok (f .ARGMAX)
  | 8 => .ok (f .ARGMIN)
  | _ => .assert_failure "Unsuported aggregation."

/-- dispatch_aggregation of Element: binds the already-dispatched element
type and forwards the dispatched kind to the two-parameter callable f. -/
def dispatch_aggregation {α : Type} (t : ElementType)
    (f : ElementType → Kind → α) : Kind → α :=
  fun k => f t k

/-- dispatch_source: for an already-dispatched element type, runs the kind
dispatcher with dispatch_aggregation as the callable. -/
def dispatch_source {α : Type} (t : ElementType) (v : Nat)
    (f : ElementType → Kind → α) : Except String α :=
  aggregation_dispatcher_host v (dispatch_aggregation t f)

/-- type_dispatcher. Modelled from the spec: types.hpp is not among the given
sources; the type-tag dispatch primitive resolves a runtime element-type tag
to its compile-time identity and invokes the callable on it. In this
embedding the tag and the static type coincide, so dispatch is application. -/
def type_dispatcher {β : Type} (t : ElementType) (g : ElementType → β) : β :=
  g t

/-- dispatch_type_and_aggregation on the host path: dispatches the element
type first and the kind second, reaching the specialization of f for the
(element type, kind) pair. -/
def dispatch_type_and_aggregation {α : Type} (t : ElementType) (v : Nat)
    (f : ElementType → Kind → α) : Except String α :=
  type_dispatcher t (fun e => dispatch_source e v f)

end cudf

/-- C1: the claim states that the target-type resolver maps (T, MEDIAN) to
double, the same final resolved type as QUANTILE. On the code as written the
MEDIAN specialization names the QUANTILE trait class itself (the alias omits
the trailing type member access), so the resolved type for (int32, MEDIAN) is
the trait struct of (int32, QUANTILE) and is not double, while (int32,
QUANTILE) does resolve to double. This theorem evaluates the code at that
failing input. -/
theorem median_target_is_unresolved_trait :
    cudf.target_type_t .int32 .MEDIAN = .traitStruct .int32 .QUANTILE ∧
    (cudf.target_type_t .int32 .MEDIAN == cudf.double) = false ∧
    cudf.target_type_t .int32 .QUANTILE = cudf.double := by
  refine ⟨rfl, by decide, rfl⟩

/-- C2: for every element type T and kind K, the validity oracle
is_valid_aggregation returns true exactly when the target-type resolver
yields a mapping for (T, K), that is, exactly when the resolved target type
is not void; the oracle and the resolver never disagree. -/
theorem is_valid_iff_mapping :
    ∀ (t : cudf.ElementType) (k : cudf.Kind),
      cudf.is_valid_aggregation t k = true ↔
        cudf.is_void (cudf.target_type_t t k) = false := by
  intro t k
  cases t <;> cases k <;> decide

/-- C3: for every element type T, the target-type resolver maps (T, MIN) to T
and (T, MAX) to T. -/
theorem min_max_target_identity :
    ∀ t : cudf.ElementType,
      cudf.target_type_t t .MIN = .elem t ∧
      cudf.target_type_t t .MAX = .elem t := by
  intro t
  cases t <;> exact ⟨rfl, rfl⟩

/-- C4: the SUM target-type rule over the whole modelled element-type
universe: every integral element type maps to int64_t, every floating-point
element type to itself, every timestamp element type to itself, and the one
remaining element type (string) has no mapping. -/
theorem sum_target_rule :
    cudf.target_type_t .int8 .SUM = cudf.int64_t ∧
    cudf.target_type_t .int16 .SUM = cudf.int64_t ∧
    cudf.target_type_t .int32 .SUM = cudf.int64_t ∧
    cudf.target_type_t .int64 .SUM = cudf.int64_t ∧
    cudf.target_type_t .float32 .SUM = .elem .float32 ∧
    cudf.target_type_t .float64 .SUM = .elem .float64 ∧
    cudf.target_type_t .timestamp_D .SUM = .elem .timestamp_D ∧
    cudf.target_type_t .timestamp_s .SUM = .elem .timestamp_s ∧
    cudf.target_type_t .timestamp_ms .SUM = .elem .timestamp_ms ∧
    cudf.target_type_t .timestamp_us .SUM = .elem .timestamp_us ∧
    cudf.target_type_t .timestamp_ns .SUM = .elem .timestamp_ns ∧
    cudf.target_type_t .string .SUM = .void := by
  decide

/-- C5: for every element type T, the target-type resolver maps (T, COUNT) to
size_type, (T, MEAN) to double, and (T, QUANTILE) to double. -/
theorem count_mean_quantile_targets :
    ∀ t : cudf.ElementType,
      cudf.target_type_t t .COUNT = cudf.size_type ∧
      cudf.target_type_t t .MEAN = cudf.double ∧
      cudf.target_type_t t .QUANTILE = cudf.double := by
  intro t
  cases t <;> exact ⟨rfl, rfl, rfl⟩

/-- C6: for every element type T, the target-type resolver maps (T, ARGMIN)
and (T, ARGMAX) to size_type; both reserved sentinel constants equal -1, and
since valid indices are non-negative the sentinel differs from every valid
index. -/
theorem argminmax_targets_and_sentinels :
    (∀ t : cudf.ElementType,
        cudf.target_type_t t .ARGMIN = cudf.size_type ∧
        cudf.target_type_t t .ARGMAX = cudf.size_type) ∧
    cudf.ARGMIN_SENTINEL = -1 ∧ cudf.ARGMAX_SENTINEL = -1 ∧
    (∀ i : Int, 0 ≤ i →
        (cudf.ARGMIN_SENTINEL == i) = false ∧
        (cudf.ARGMAX_SENTINEL == i) = false) := by
  refine ⟨?_, rfl, rfl, ?_⟩
  · intro t
    cases t <;> exact ⟨rfl, rfl⟩
  · intro i h
    constructor <;>
      · rw [beq_eq_false_iff_ne]
        simp only [cudf.ARGMIN_SENTINEL, cudf.ARGMAX_SENTINEL]
        omega

/-- Witness for C6: the sentinel theorem instantiated at the concrete valid
index 7. -/
theorem argminmax_sentinels_witness :
    (cudf.ARGMIN_SENTINEL == (7 : Int)) = false ∧
    (cudf.ARGMAX_SENTINEL == (7 : Int)) = false :=
  argminmax_targets_and_sentinels.2.2.2 7 (by decide)

/-- C7: dispatch determinism. For every kind K inside the supported dispatch
set, invoking the dispatcher with the value of K calls exactly the
specialization of the operation body for K, on both the host and the device
path, and the double dispatcher reaches the specialization for the runtime
element type and K; for every value outside the supported set the host path
fails with the structured error and the device path aborts, with the same
outcome for every operation body, so no body runs. -/
theorem dispatch_determinism :
    (∀ (α : Type) (f : cudf.Kind → α) (k : cudf.Kind),
        cudf.in_dispatch_set k = true →
          cudf.aggregation_dispatcher_host (cudf.kindVal k) f = .ok (f k) ∧
          cudf.aggregation_dispatcher_device (cudf.kindVal k) f = .ok (f k)) ∧
    (∀ (α : Type) (f : cudf.ElementType → cudf.Kind → α)
        (t : cudf.ElementType) (k : cudf.Kind),
        cudf.in_dispatch_set k = true →
          cudf.dispatch_type_and_aggregation t (cudf.kindVal k) f =
            .ok (f t k)) ∧
    (∀ (α : Type) (f : cudf.Kind → α) (v : Nat), 8 < v →
        cudf.aggregation_dispatcher_host v f =
          .error "Unsupported aggregation." ∧
        cudf.aggregation_dispatcher_device v f =
          .assert_failure "Unsuported aggregation.") := by
  refine ⟨?_, ?_, ?_⟩
  · intro α f k h
    cases k <;> first
      | exact ⟨rfl, rfl⟩
      | exact absurd h (by decide)
  · intro α f t k h
    cases k <;> first
      | exact rfl
      | exact absurd h (by decide)
  · intro α f v h
    obtain ⟨w, rfl⟩ : ∃ w, v = w + 9 := ⟨v - 9, by omega⟩
    exact ⟨rfl, rfl⟩

/-- Witness for C7: the dispatch theorem instantiated at the supported kind
SUM and at the out-of-range value 999, with the operation body that returns
the underlying value of the dispatched kind. -/
theorem dispatch_determinism_witness :
    cudf.aggregation_dispatcher_host (cudf.kindVal .SUM)
        (fun k => cudf.kindVal k) = .ok 0 ∧
    cudf.dispatch_type_and_aggregation .int32 (cudf.kindVal .MAX)
        (fun _ k => cudf.kindVal k) = .ok 2 ∧
    cudf.aggregation_dispatcher_host 999 (fun k => cudf.kindVal k) =
      .error "Unsupported aggregation." ∧
    cudf.aggregation_dispatcher_device 999 (fun k => cudf.kindVal k) =
      .assert_failure "Unsuported aggregation." :=
  ⟨(dispatch_determinism.1 Nat (fun k => cudf.kindVal k) .SUM (by decide)).1,
   dispatch_determinism.2.1 Nat (fun _ k => cudf.kindVal k) .int32 .MAX
     (by decide),
   (dispatch_determinism.2.2 Nat (fun k => cudf.kindVal k) 999 (by decide)).1,
   (dispatch_determinism.2.2 Nat (fun k => cudf.kindVal k) 999 (by decide)).2⟩

/-- C8 counterexample: the claim states that the validity oracle reports the
user-defined kinds as valid for every element type; on the code the resolver
has no specialization for PTX, so target_type_t of (int32, PTX) is void and
the oracle reports false. -/
theorem udf_valid_counterexample :
    cudf.is_valid_aggregation .int32 .PTX = false := by
  decide

/-- C8 amended: for every element type T, the validity oracle reports the
user-defined kinds PTX and CUDA as invalid, because the target-type resolver
falls to its primary template (void, no mapping) for them; the output type
the caller declared on a user-defined descriptor is never consulted by the
oracle. -/
theorem udf_kinds_reported_invalid :
    ∀ t : cudf.ElementType,
      cudf.is_valid_aggregation t .PTX = false ∧
      cudf.is_valid_aggregation t .CUDA = false := by
  intro t
  cases t <;> exact ⟨rfl, rfl⟩

/-- C9 counterexample: the claim states that constructing a quantile
descriptor with an empty fraction list fails at construction time with
MalformedDescriptor; on the code the constructor performs no validation, and
constructing with the empty list succeeds, returning the descriptor with kind
QUANTILE and the empty fraction list. -/
theorem quantile_empty_list_constructs :
    cudf.quantile_aggregation.construct [] .LINEAR =
      .ok ⟨.QUANTILE, [], .LINEAR⟩ := by
  rfl

/-- C9 amended: constructing a quantile descriptor never fails: the
constructor performs no validation, so an empty fraction list is accepted
exactly like a non-empty one, and the descriptor stores the kind QUANTILE
together with the given fractions and interpolation mode verbatim. -/
theorem quantile_construct_never_fails :
    ∀ (q : List Float) (i : cudf.interpolation),
      cudf.quantile_aggregation.construct q i = .ok ⟨.QUANTILE, q, i⟩ :=
  fun _ _ => rfl

/-- C10: dispatching either user-defined kind (PTX, value 9; CUDA, value 10)
falls through to the same default branch as an out-of-range value: the host
path fails with the structured error and the device path aborts, with the
same outcome for every operation body, so no operation body is ever invoked
for them. -/
theorem udf_kinds_not_dispatchable :
    ∀ (α : Type) (f : cudf.Kind → α),
      cudf.aggregation_dispatcher_host (cudf.kindVal .PTX) f =
        .error "Unsupported aggregation." ∧
      cudf.aggregation_dispatcher_host (cudf.kindVal .CUDA) f =
        .error "Unsupported aggregation." ∧
      cudf.aggregation_dispatcher_device (cudf.kindVal .PTX) f =
        .assert_failure "Unsuported aggregation." ∧
      cudf.aggregation_dispatcher_device (cudf.kindVal .CUDA) f =
        .assert_failure "Unsuported aggregation." :=
  fun _ _ => ⟨rfl, rfl, rfl, rfl⟩
